import Mathlib

/-!
Shallow embedding of the Rust kernel debugfs / proc_fs / module_param layer
and the seq-file sample payloads of this repository
(`rust/kernel/debugfs.rs`, `rust/kernel/proc_fs.rs`,
`rust/kernel/module_param.rs`, `samples/rust/rust_seq_file.rs`,
`samples/rust/rust_seq_file_old.rs`), together with proofs about its
ownership, error-handling, type-recovery and iteration behaviour.

Host primitives (`debugfs_create_dir`, `debugfs_create_file`,
`proc_create_seq_private`) and heap allocation (`Box::try_new`) are
modelled as explicit outcome parameters; removal calls issued to the host
are modelled as values of `HostCall` so that destructor behaviour is
observable.
-/

namespace DebugFs

/-- Opaque identity of a host `dentry` (node reference). The core never
inspects it beyond handing it back to the host. -/
abbrev Dentry := Nat

/-- Kernel error code `ENOMEM` (allocation failure), as produced by the
`?` conversion from `AllocError` and by `proc_fs.rs` on a null return. -/
def ENOMEM : Int := -12

/-- Kernel error code `EINVAL` (invalid argument), the value of
`Error::EINVAL.to_kernel_errno()`. -/
def EINVAL : Int := -22

/-- A removal call issued to the host (`debugfs_remove_with_callback`). -/
inductive HostCall where
  | remove (d : Dentry)
deriving DecidableEq

/-- Embeds `DebugFsDirectory` from `rust/kernel/debugfs.rs`: the host
`dentry` pointer plus the `has_parent` ownership flag. -/
structure DebugFsDirectory where
  dentry : Dentry
  has_parent : Bool
deriving DecidableEq

/-- Embeds `DebugFsDirectory::create`. The outcome of the host primitive
`debugfs_create_dir` (after `from_kernel_err_ptr`) is the explicit
parameter `host`; on success the handle records
`has_parent = parent.is_some()`. -/
def DebugFsDirectory.create (parent : Option DebugFsDirectory)
    (host : Except Int Dentry) : Except Int DebugFsDirectory :=
  let has_parent := parent.isSome
  match host with
  | .error e => .error e
  | .ok d => .ok ⟨d, has_parent⟩

/-- Embeds `impl Drop for DebugFsDirectory`: the removal calls issued to
the host when the handle is destroyed. -/
def DebugFsDirectory.dropCalls (dir : DebugFsDirectory) : List HostCall :=
  if !dir.has_parent then [HostCall.remove dir.dentry] else []

/-- Embeds `DebugFsFile<T>` from `rust/kernel/debugfs.rs`: the `dentry`
field is `Some` exactly when the file was created without a parent. -/
structure DebugFsFile where
  dentry : Option Dentry
deriving DecidableEq

/-- Embeds `impl Drop for DebugFsFile<T>`: a removal call is issued iff
the handle still holds its `dentry`. -/
def DebugFsFile.dropCalls (f : DebugFsFile) : List HostCall :=
  match f.dentry with
  | some d => [HostCall.remove d]
  | none => []

/-- Everything one `DebugFsFile::create` call lets the claims observe:
the returned `Result`, how many of the allocations made for the payload
are still live when the call returns, the payload value left stored in
the node's `i_private` slot, and how many times the payload's destructor
ran during the call. -/
structure FileCreateOutcome (α : Type) where
  result : Except Int DebugFsFile
  livePayloadAllocs : Nat
  storedPayload : Option α
  payloadDrops : Nat

/-- Embeds `DebugFsFile::create`. `alloc1Ok` and `alloc2Ok` are the
outcomes of the two `Box::try_new` calls that double-box `data` into a
`Box<Box<dyn Any>>` (a failed `Box::try_new` drops its argument, running
the payload's destructor); `host` is the outcome of
`debugfs_create_file`. On host rejection the erased pointer is recovered
with `PointerWrapper::from_pointer` and dropped before the error is
returned; on success both boxes stay live and the payload is stored. -/
def DebugFsFile.create {α : Type} (data : α) (hasParent : Bool)
    (alloc1Ok alloc2Ok : Bool) (host : Except Int Dentry) :
    FileCreateOutcome α :=
  if !alloc1Ok then
    ⟨.error ENOMEM, 0, none, 1⟩
  else if !alloc2Ok then
    ⟨.error ENOMEM, 0, none, 1⟩
  else
    match host with
    | .error e => ⟨.error e, 0, none, 1⟩
    | .ok d => ⟨.ok ⟨if hasParent then none else some d⟩, 2, some data, 0⟩

/-- Everything one `ProcDirEntry::new_seq_private` call lets the claims
observe (`rust/kernel/proc_fs.rs`). -/
structure ProcCreateOutcome (α : Type) where
  result : Except Int Nat
  storedPayload : Option α
  payloadDrops : Nat

/-- Embeds `ProcDirEntry::new_seq_private`: `data` is erased with
`T::into_pointer` and handed to `proc_create_seq_private`; a null return
(`host = none`) recovers the payload with `T::from_pointer`, drops it and
returns `ENOMEM`; otherwise the entry stores the payload. -/
def ProcDirEntry.new_seq_private {α : Type} (data : α) (host : Option Nat) :
    ProcCreateOutcome α :=
  match host with
  | none => ⟨.error ENOMEM, none, 1⟩
  | some p => ⟨.ok p, some data, 0⟩

end DebugFs

namespace SeqFileSample

/-- Embeds the iterator state `Box<(usize, usize)>` of the `Token`
`SeqOperations` implementation in `samples/rust/rust_seq_file.rs`:
component 0 is `total`, component 1 is `current`. -/
structure TokenIter where
  total : Nat
  current : Nat
deriving DecidableEq

/-- Embeds `Token::start`: reads `token_count` under the lock and boxes
the pair `(total, 1)`; `allocOk` is the outcome of `Box::try_new`, whose
failure `.ok()` turns into `None`. -/
def Token.start (allocOk : Bool) (tokenCount : Nat) : Option TokenIter :=
  if allocOk then some ⟨tokenCount, 1⟩ else none

/-- Embeds `Token::next`: returns `false` when `total == current`,
otherwise increments `current` and returns `true`. The result pairs the
returned `bool` with the updated iterator. -/
def Token.next (it : TokenIter) : Bool × TokenIter :=
  if it.total == it.current then (false, it)
  else (true, ⟨it.total, it.current + 1⟩)

/-- Embeds `Token::current`: `Some(current)` when `total > current`,
otherwise `None`. -/
def Token.current (it : TokenIter) : Option Nat :=
  if it.total > it.current then some it.current else none

/-- Modelled from the spec: the session loop of the sequential iteration
protocol (the `seq_file` wrapper that drives `start`/`next`/`current` is
not among the sources). At each cursor position the item reported by
`current` (if any) is emitted, then the cursor is advanced with `next`;
the loop stops once `next` reports exhaustion. `fuel` bounds the number
of positions visited so the loop is total even for payloads whose `next`
never returns `false`. -/
def sessionItemsFrom (fuel : Nat) (it : TokenIter) : List Nat :=
  match fuel with
  | 0 => []
  | fuel + 1 =>
    let head := (Token.current it).toList
    let step := Token.next it
    if step.1 then head ++ sessionItemsFrom fuel step.2 else head

/-- Modelled from the spec: the items of one whole session against a
`Token` payload with counter value `tokenCount`, assuming the `start`
allocation succeeds. -/
def sessionItems (fuel : Nat) (tokenCount : Nat) : List Nat :=
  match Token.start true tokenCount with
  | none => []
  | some it => sessionItemsFrom fuel it

/-- Reserved digit width for the rendered counter in
`samples/rust/rust_seq_file_old.rs` (`MAX_DIGITS`). -/
def MAX_DIGITS : Nat := 3

/-- Reserved extra capacity for the number and newline (`MAX_LENGTH`). -/
def MAX_LENGTH : Nat := MAX_DIGITS + 1

/-- Largest counter value displayed exactly (`MAX_COUNT`, 999). -/
def MAX_COUNT : Nat := 10 ^ MAX_DIGITS - 1

/-- Fuel-bounded recursion producing the decimal digit characters of `n`,
most significant first; any `fuel > n` yields the full digit string. -/
def decimalDigitsAux (fuel n : Nat) : List Char :=
  match fuel with
  | 0 => []
  | fuel + 1 =>
    if n < 10 then [Char.ofNat (48 + n)]
    else decimalDigitsAux fuel (n / 10) ++ [Char.ofNat (48 + n % 10)]

/-- Decimal digit characters of `n`, most significant first: the
rendering of `{}` for an unsigned integer by Rust's formatter, which
`writeln!` appends to the message. -/
def decimalDigits (n : Nat) : List Char :=
  decimalDigitsAux (n + 1) n

/-- Embeds the template choice in `State::start`
(`samples/rust/rust_seq_file_old.rs`): the exact-count text for counters
up to `MAX_COUNT`, the clamped-count text above it. -/
def template (count : Nat) : String :=
  if count ≤ MAX_COUNT then
    "rust_seq_file: device opened this many times: "
  else
    "rust_seq_file: device opened at least this many times: "

/-- Embeds the message built by `State::start`: the template followed by
`writeln!` of `min(count, MAX_COUNT)` (digits then a newline). -/
def renderMessage (count : Nat) : String :=
  template count ++ (decimalDigits (min count MAX_COUNT)).asString ++ "\n"

/-- Embeds the iterator built at the end of `State::start`:
`repeat(message).take(count)`, i.e. `count` copies of the rendered
message. -/
def State.startItems (count : Nat) : List String :=
  List.replicate count (renderMessage count)

end SeqFileSample

namespace Erasure

/-- The model heap for erased payloads: slot `p` holds `some v` while the
allocation made for `v` is live and `none` once it has been freed. -/
abbrev Heap (α : Type) : Type := List (Option α)

/-- Embeds the erase step of `DebugFsFile::create`
(`rust/kernel/debugfs.rs` lines 111–113): the double-boxed value is
published with `PointerWrapper::into_pointer`. Allocates a fresh slot
holding `v` and returns its address. -/
def intoPointer {α : Type} (h : Heap α) (v : α) : Nat × Heap α :=
  (h.length, h ++ [some v])

/-- Embeds `PointerWrapper::from_pointer`: reads the value held at `p`
and frees the allocation. -/
def fromPointer {α : Type} (h : Heap α) (p : Nat) : Option α × Heap α :=
  (h.getD p none, h.set p none)

/-- Observation record for one `drop_i_private` call: the heap afterwards,
the value recovered from the slot, and how many times the recovered
value's destructor ran. -/
structure DropOutcome (α : Type) where
  heap : Heap α
  recovered : Option α
  destructorRuns : Nat

/-- Embeds `drop_i_private` (`rust/kernel/debugfs.rs` lines 164–173): a
null `i_private` does nothing; otherwise the slot is recovered with
`PointerWrapper::from_pointer` into a `Box<Box<dyn Any>>` binding that is
immediately dropped, running the payload's destructor. -/
def drop_i_private {α : Type} (h : Heap α) (iPrivate : Option Nat) :
    DropOutcome α :=
  match iPrivate with
  | none => ⟨h, none, 0⟩
  | some p =>
    let r := fromPointer h p
    ⟨r.2, r.1, if r.1.isSome then 1 else 0⟩

end Erasure

namespace AnyModel

/-- Model of `dyn Any`: a value paired with its runtime type identity,
over a caller-chosen universe `κ` of type codes interpreted by `interp`.
This is the `Box<dyn Any>` stored (behind a second box) in the node's
`i_private` slot by `DebugFsFile::create`. -/
structure DynAny (κ : Type) (interp : κ → Type) where
  typeId : κ
  value : interp typeId

/-- Model of `<dyn Any>::downcast_ref::<T>`: succeeds exactly when the
stored runtime type identity matches the requested one. -/
def downcast (κ : Type) [DecidableEq κ] (interp : κ → Type) (c : κ)
    (d : DynAny κ interp) : Option (interp c) :=
  if h : d.typeId = c then some (h ▸ d.value) else none

/-- Result of `OpenAdapter::convert`: either the recovered reference or
the fatal `panic!()` branch. -/
inductive ConvertResult (τ : Type) where
  | ok (v : τ)
  | panicked

/-- Embeds `impl OpenAdapter<T> for DebugFsFile<T>`
(`rust/kernel/debugfs.rs` lines 184–194): borrow the `Box<Box<dyn Any>>`
in `i_private` and downcast it to `T`; the `None` arm of the downcast is
the fatal `panic!()` branch. -/
def OpenAdapter.convert (κ : Type) [DecidableEq κ] (interp : κ → Type)
    (c : κ) (d : DynAny κ interp) : ConvertResult (interp c) :=
  match downcast κ interp c d with
  | some v => .ok v
  | none => .panicked

/-- Embeds the storing side of `debugfs_create::<T>`: the payload
`data : T::OpenData` is erased as a `dyn Any` whose runtime type identity
is `T::OpenData` itself. -/
def debugfsCreateStored (κ : Type) (interp : κ → Type) (c : κ)
    (v : interp c) : DynAny κ interp := ⟨c, v⟩

end AnyModel

namespace ModuleParamModel

/-- Observation record for one `set_param` call: the returned C `int`,
the parameter value stored behind `param.arg` afterwards, and how many
times the old stored value's destructor ran. -/
structure SetParamOutcome (α : Type) where
  ret : Int
  stored : α
  oldValueDrops : Nat

/-- Embeds `ModuleParam::set_param` (`rust/kernel/module_param.rs`): the
null-terminated argument string is parsed with `try_from_param_arg`
(passed as the function `tryFromParamArg`; the trait leaves it to each
implementing type); on success the stored value behind `param.arg` is
replaced via `core::ptr::replace`, the old value is dropped once by the
discarded binding, and 0 is returned; on failure the stored value is
untouched and `Error::EINVAL.to_kernel_errno()` is returned. -/
def set_param (α : Type) (tryFromParamArg : List Nat → Option α)
    (arg : List Nat) (stored : α) : SetParamOutcome α :=
  match tryFromParamArg arg with
  | some newValue => ⟨0, newValue, 1⟩
  | none => ⟨DebugFs.EINVAL, stored, 0⟩

end ModuleParamModel

namespace DebugFs

/-- C1: a node handle (directory or file) issues a host removal call on
destruction if and only if it was created without a parent; a handle
created with a parent issues no removal call, and a parentless handle
issues exactly one. -/
theorem removal_iff_parentless
    (parent : Option DebugFsDirectory) (hostd : Except Int Dentry)
    (dir : DebugFsDirectory)
    (hdir : DebugFsDirectory.create parent hostd = .ok dir)
    {α : Type} (data : α) (hasParent : Bool) (alloc1Ok alloc2Ok : Bool)
    (hostf : Except Int Dentry) (f : DebugFsFile)
    (hf : (DebugFsFile.create data hasParent alloc1Ok alloc2Ok hostf).result
      = .ok f) :
    (dir.dropCalls.length = if parent.isSome then 0 else 1)
      ∧ (f.dropCalls.length = if hasParent then 0 else 1) := by
  constructor
  · cases hostd with
    | error e => simp [DebugFsDirectory.create] at hdir
    | ok d =>
      simp [DebugFsDirectory.create] at hdir
      subst hdir
      cases h : parent.isSome <;>
        simp [DebugFsDirectory.dropCalls, h]
  · cases alloc1Ok with
    | false => simp [DebugFsFile.create] at hf
    | true =>
      cases alloc2Ok with
      | false => simp [DebugFsFile.create] at hf
      | true =>
        cases hostf with
        | error e => simp [DebugFsFile.create] at hf
        | ok d =>
          simp [DebugFsFile.create] at hf
          subst hf
          cases hasParent <;> simp [DebugFsFile.dropCalls]

/-- Witness for C1: a top-level directory (dentry 5) and a top-level file
(dentry 7) each issue exactly one removal call when dropped. -/
theorem removal_iff_parentless_witness :
    (DebugFsDirectory.mk 5 false).dropCalls.length = 1
      ∧ (DebugFsFile.mk (some 7)).dropCalls.length = 1 := by
  have h := removal_iff_parentless none (.ok 5) ⟨5, false⟩ rfl
    (0 : Nat) false true true (.ok 7) ⟨some 7⟩ rfl
  simpa using h

/-- C2: when the host rejects the create request, `DebugFsFile::create`
recovers the erased payload, drops it exactly once and returns the host's
error; every failure path (of the debugfs and of the proc_fs creation)
leaves no payload stored and no allocation live, and runs the payload's
destructor exactly once. -/
theorem create_failure_frees_payload
    {α : Type} (data : α) (hasParent : Bool) (alloc1Ok alloc2Ok : Bool)
    (host : Except Int Dentry) (e : Int) :
    (host = .error e → alloc1Ok = true → alloc2Ok = true →
      (DebugFsFile.create data hasParent alloc1Ok alloc2Ok host).result
          = .error e
        ∧ (DebugFsFile.create data hasParent alloc1Ok alloc2Ok
            host).payloadDrops = 1)
      ∧ ((DebugFsFile.create data hasParent alloc1Ok alloc2Ok
            host).result.isOk = false →
          (DebugFsFile.create data hasParent alloc1Ok alloc2Ok
              host).storedPayload = none
            ∧ (DebugFsFile.create data hasParent alloc1Ok alloc2Ok
                host).livePayloadAllocs = 0
            ∧ (DebugFsFile.create data hasParent alloc1Ok alloc2Ok
                host).payloadDrops = 1)
      ∧ ((ProcDirEntry.new_seq_private data none).result = .error ENOMEM
          ∧ (ProcDirEntry.new_seq_private data none).storedPayload
              = (none : Option α)
          ∧ (ProcDirEntry.new_seq_private data none).payloadDrops = 1) := by
  refine ⟨?_, ?_, ?_⟩
  · rintro rfl rfl rfl
    simp [DebugFsFile.create]
  · intro hfail
    cases alloc1Ok with
    | false => simp [DebugFsFile.create]
    | true =>
      cases alloc2Ok with
      | false => simp [DebugFsFile.create]
      | true =>
        cases host with
        | error e0 => simp [DebugFsFile.create]
        | ok d => simp [DebugFsFile.create, Except.isOk, Except.toBool] at hfail
  · simp [ProcDirEntry.new_seq_private]

/-- Witness for C2: at payload 42 with both allocations succeeding and the
host answering `-17` (`EEXIST`), creation returns the error, drops the
payload once, stores nothing and leaves no allocation live. -/
theorem create_failure_frees_payload_witness :
    ((DebugFsFile.create (42 : Nat) false true true (.error (-17))).result
        = .error (-17)
      ∧ (DebugFsFile.create (42 : Nat) false true true
          (.error (-17))).payloadDrops = 1)
      ∧ ((DebugFsFile.create (42 : Nat) false true true
            (.error (-17))).storedPayload = none
        ∧ (DebugFsFile.create (42 : Nat) false true true
            (.error (-17))).livePayloadAllocs = 0) := by
  have h := create_failure_frees_payload (42 : Nat) false true true
    (.error (-17)) (-17)
  refine ⟨h.1 rfl rfl rfl, ?_⟩
  have h2 := h.2.1 (by simp [DebugFsFile.create, Except.isOk, Except.toBool])
  exact ⟨h2.1, h2.2.1⟩

end DebugFs

namespace SeqFileSample

/-- C5 shows code behaviour: `Token::start` on a payload with counter 0
returns the cursor `(0, 1)` whenever its allocation succeeds, instead of
`None` for the empty sequence. -/
theorem start_on_empty_returns_cursor :
    Token.start true 0 = some ⟨0, 1⟩ := rfl

/-- C3 shows code behaviour: on an empty sequence (counter 0) the very
first advance is already past the end, yet `Token::next` answers `true`
and advances the cursor, and it answers `true` again at every later
position, so a session over an empty payload never observes exhaustion. -/
theorem next_true_on_empty_sequence :
    Token.next ⟨0, 1⟩ = (true, ⟨0, 2⟩)
      ∧ ∀ k : Nat, Token.next ⟨0, k + 1⟩ = (true, ⟨0, k + 2⟩) := by
  refine ⟨rfl, ?_⟩
  intro k
  simp [Token.next]

/-- C6 shows code behaviour: at counter 2 the first `next` call returns
`true`, yet `current` on the cursor it produces returns `None`,
disagreeing with the most recent `next` result. -/
theorem current_disagrees_with_next :
    Token.start true 2 = some ⟨2, 1⟩
      ∧ Token.next ⟨2, 1⟩ = (true, ⟨2, 2⟩)
      ∧ Token.current ⟨2, 2⟩ = none :=
  ⟨rfl, rfl, rfl⟩

/-- C4 shows code behaviour: a session against the `Token` payload at
counter 2 produces the single item 1 — length 1, not 2 — whereas the
older `State` payload at counter 2 produces exactly 2 items. -/
theorem session_at_two_has_one_item :
    sessionItems 10 2 = [1]
      ∧ (sessionItems 10 2).length = 1
      ∧ (State.startItems 2).length = 2 :=
  ⟨rfl, rfl, rfl⟩

/-- Unfolding lemma: the digit string is fuel-independent once the fuel
exceeds the number. -/
theorem decimalDigitsAux_congr : ∀ f1 f2 n : Nat, n < f1 → n < f2 →
    decimalDigitsAux f1 n = decimalDigitsAux f2 n := by
  intro f1
  induction f1 with
  | zero => intro f2 n h1 h2; omega
  | succ f ih =>
    intro f2 n h1 h2
    cases f2 with
    | zero => omega
    | succ g =>
      by_cases hn : n < 10
      · simp only [decimalDigitsAux, if_pos hn]
      · simp only [decimalDigitsAux, if_neg hn]
        have hd : n / 10 < f := by omega
        have hd2 : n / 10 < g := by omega
        rw [ih g (n / 10) hd hd2]

/-- Unfolding lemma for one-digit numbers. -/
theorem decimalDigits_of_lt (n : Nat) (h : n < 10) :
    decimalDigits n = [Char.ofNat (48 + n)] := by
  simp only [decimalDigits, decimalDigitsAux, if_pos h]

/-- Unfolding lemma for multi-digit numbers. -/
theorem decimalDigits_of_ge (n : Nat) (h : ¬ n < 10) :
    decimalDigits n = decimalDigits (n / 10) ++ [Char.ofNat (48 + n % 10)] := by
  show decimalDigitsAux (n + 1) n = _
  rw [decimalDigitsAux, if_neg h,
    decimalDigitsAux_congr n (n / 10 + 1) (n / 10) (by omega) (by omega)]
  rfl

/-- A number of at most `MAX_COUNT = 999` renders to at most
`MAX_DIGITS = 3` digit characters. -/
theorem decimalDigits_length_le (n : Nat) (h : n ≤ 999) :
    (decimalDigits n).length ≤ 3 := by
  by_cases h1 : n < 10
  · rw [decimalDigits_of_lt n h1]
    simp
  · by_cases h2 : n / 10 < 10
    · rw [decimalDigits_of_ge n h1, decimalDigits_of_lt (n / 10) h2]
      simp
    · have ha : n / 10 ≤ 99 := by omega
      have h3 : n / 10 / 10 < 10 := by omega
      rw [decimalDigits_of_ge n h1, decimalDigits_of_ge (n / 10) h2,
        decimalDigits_of_lt (n / 10 / 10) h3]
      simp

/-- Length of `List.asString` is the length of the list. -/
theorem asString_length (l : List Char) : l.asString.length = l.length := rfl

/-- C8: the message rendered by `State::start` never exceeds the reserved
capacity (template length plus `MAX_LENGTH = 4`, room for a 3-digit
number and the newline); for a counter of at most 999 it is the
exact-count text followed by the counter's digits and a newline, and for
a larger counter it is the at-least text followed by the clamped value
999. -/
theorem renderMessage_within_reserved (count : Nat) :
    (renderMessage count).length ≤ (template count).length + MAX_LENGTH
      ∧ (count ≤ 999 →
          renderMessage count
            = "rust_seq_file: device opened this many times: "
                ++ (decimalDigits count).asString ++ "\n")
      ∧ (999 < count →
          renderMessage count
            = "rust_seq_file: device opened at least this many times: "
                ++ "999" ++ "\n") := by
  have hmc : MAX_COUNT = 999 := rfl
  refine ⟨?_, ?_, ?_⟩
  · have hd : (decimalDigits (min count MAX_COUNT)).length ≤ 3 := by
      apply decimalDigits_length_le
      omega
    simp only [renderMessage, String.length_append, asString_length, MAX_LENGTH,
      MAX_DIGITS]
    have hnl : ("\n" : String).length = 1 := rfl
    omega
  · intro hle
    have hmin : min count 999 = count := by omega
    simp [renderMessage, template, hmc, hmin, hle]
  · intro hgt
    have hmin : min count 999 = 999 := by omega
    have hnotle : ¬ count ≤ 999 := by omega
    have h999 : (decimalDigits 999).asString = "999" := by decide
    simp [renderMessage, template, hmc, hmin, hnotle, h999]

/-- Witness for C8: at counter 1000 the rendered text is the clamped
at-least form within the reserved capacity, and at counter 5 it is the
exact-count form. -/
theorem renderMessage_within_reserved_witness :
    (renderMessage 1000).length ≤ (template 1000).length + MAX_LENGTH
      ∧ renderMessage 1000
          = "rust_seq_file: device opened at least this many times: "
              ++ "999" ++ "\n"
      ∧ renderMessage 5
          = "rust_seq_file: device opened this many times: "
              ++ (decimalDigits 5).asString ++ "\n" :=
  ⟨(renderMessage_within_reserved 1000).1,
    (renderMessage_within_reserved 1000).2.2 (by omega),
    (renderMessage_within_reserved 5).2.1 (by omega)⟩

end SeqFileSample

namespace Erasure

/-- Reading the freshly appended slot returns its contents. -/
theorem heap_getD_concat {α : Type} (h : Heap α) (a : Option α) :
    (h ++ [a]).getD h.length none = a := by
  induction h with
  | nil => rfl
  | cons x xs ih => simp [List.getD]

/-- Overwriting the freshly appended slot rewrites just that slot. -/
theorem heap_set_concat {α : Type} (h : Heap α) (a b : Option α) :
    (h ++ [a]).set h.length b = h ++ [b] := by
  induction h with
  | nil => rfl
  | cons x xs ih => simp [ih]

/-- C7: erasing a payload (`PointerWrapper::into_pointer` on the double
box) and recovering it with `drop_i_private` yields exactly the erased
value, runs its destructor exactly once, and frees the slot, so a second
recovery of the same pointer finds nothing and runs no destructor. -/
theorem unerase_of_erase {α : Type} (h : Heap α) (v : α) :
    (drop_i_private (intoPointer h v).2 (some (intoPointer h v).1)).recovered
        = some v
      ∧ (drop_i_private (intoPointer h v).2
          (some (intoPointer h v).1)).destructorRuns = 1
      ∧ (drop_i_private (intoPointer h v).2
          (some (intoPointer h v).1)).heap = h ++ [none]
      ∧ (drop_i_private (h ++ [none]) (some (intoPointer h v).1)).recovered
          = none
      ∧ (drop_i_private (h ++ [none])
          (some (intoPointer h v).1)).destructorRuns = 0 := by
  simp [drop_i_private, intoPointer, fromPointer, heap_getD_concat,
    heap_set_concat]

end Erasure

namespace AnyModel

/-- C9: opening a file whose `i_private` slot was filled by the typed
creation path recovers exactly the stored value (the `panic!()` branch is
not taken), while requesting any other type identity takes the fatal
`panic!()` branch rather than returning. -/
theorem convert_recovers_exact_value (κ : Type) [DecidableEq κ]
    (interp : κ → Type) (c c2 : κ) (v : interp c) (hne : c2 ≠ c) :
    OpenAdapter.convert κ interp c (debugfsCreateStored κ interp c v)
        = ConvertResult.ok v
      ∧ OpenAdapter.convert κ interp c2 (debugfsCreateStored κ interp c v)
        = ConvertResult.panicked := by
  constructor
  · simp [OpenAdapter.convert, downcast, debugfsCreateStored]
  · simp [OpenAdapter.convert, downcast, debugfsCreateStored, Ne.symm hne]

/-- Witness for C9: with type codes drawn from `Bool`, both interpreted
as `Nat`, the stored value 7 of code `true` is recovered exactly at code
`true` and the conversion at code `false` panics. -/
theorem convert_recovers_exact_value_witness :
    OpenAdapter.convert Bool (fun _ => Nat) true
        (debugfsCreateStored Bool (fun _ => Nat) true 7) = ConvertResult.ok 7
      ∧ OpenAdapter.convert Bool (fun _ => Nat) false
        (debugfsCreateStored Bool (fun _ => Nat) true 7)
          = ConvertResult.panicked :=
  convert_recovers_exact_value Bool (fun _ => Nat) true false 7 (by decide)

end AnyModel

namespace ModuleParamModel

/-- C10: when parsing fails, `set_param` returns `EINVAL` and leaves the
stored parameter value untouched with no destructor run; when parsing
succeeds it returns 0, stores the parsed value and drops the old value
exactly once. -/
theorem set_param_parse_contract (α : Type)
    (tryFromParamArg : List Nat → Option α) (arg : List Nat)
    (stored v : α) :
    (tryFromParamArg arg = none →
      (set_param α tryFromParamArg arg stored).ret = DebugFs.EINVAL
        ∧ (set_param α tryFromParamArg arg stored).stored = stored
        ∧ (set_param α tryFromParamArg arg stored).oldValueDrops = 0)
      ∧ (tryFromParamArg arg = some v →
        (set_param α tryFromParamArg arg stored).ret = 0
          ∧ (set_param α tryFromParamArg arg stored).stored = v
          ∧ (set_param α tryFromParamArg arg stored).oldValueDrops = 1) := by
  constructor
  · intro hN
    simp [set_param, hN]
  · intro hS
    simp [set_param, hS]

/-- Witness for C10: with `List.head?` as the parse function, the empty
argument fails (EINVAL returned, stored value 9 kept, no drop) and the
argument `[3]` succeeds (0 returned, 3 stored, old value dropped once). -/
theorem set_param_parse_contract_witness :
    ((set_param Nat List.head? [] 9).ret = DebugFs.EINVAL
      ∧ (set_param Nat List.head? [] 9).stored = 9
      ∧ (set_param Nat List.head? [] 9).oldValueDrops = 0)
      ∧ ((set_param Nat List.head? [3] 9).ret = 0
        ∧ (set_param Nat List.head? [3] 9).stored = 3
        ∧ (set_param Nat List.head? [3] 9).oldValueDrops = 1) :=
  ⟨(set_param_parse_contract Nat List.head? [] 9 3).1 rfl,
    (set_param_parse_contract Nat List.head? [3] 9 3).2 rfl⟩

end ModuleParamModel
